import Mathlib

/-!
Shallow embedding of the canvas image viewer composable
(`useCanvasImageViewer`) of the caption-studio repository: the
zoom/pan/reset state machine driven by wheel and pointer events.

Modelling choices:
* JavaScript numbers are modelled as rationals (`ℚ`); all the arithmetic
  the claims exercise is exact at the chosen inputs.
* The DOM refs `canvasRef` and `containerRef` are modelled as booleans
  (`canvasReady`, `containerReady`) recording whether the ref is non-null.
* The container's `clientWidth`/`clientHeight` are an explicit `Viewport`
  argument, and the canvas `getBoundingClientRect` an explicit `CanvasRect`
  argument, read-only environment inputs.
* The asynchronous image decode inside `loadImage` is modelled by an
  explicit `LoadOutcome` value (`onload` with the decoded bitmap, or
  `onerror`); a rejected promise is an `Except.error` result.
* Rendering-only work (canvas pixel-buffer sizing, the DPR transform,
  `requestRender`/`requestAnimationFrame`) touches no modelled state;
  the destination mapping of `render`/`drawImage` is captured by
  `renderPosX` so that cursor anchoring can be stated.
* Division by zero in `ℚ` yields 0 while in JS it yields Infinity/NaN;
  theorems about `calculateImageFit` therefore carry positivity
  hypotheses on the viewport and the decoded image dimensions, which
  always hold in the DOM.
-/

structure Viewport where
  width : ℚ
  height : ℚ
  deriving DecidableEq

structure CanvasRect where
  left : ℚ
  top : ℚ
  deriving DecidableEq

structure WheelEventQ where
  clientX : ℚ
  clientY : ℚ
  deltaY : ℚ
  deriving DecidableEq

structure MouseEventQ where
  clientX : ℚ
  clientY : ℚ
  deriving DecidableEq

structure LoadedImage where
  naturalWidth : ℚ
  naturalHeight : ℚ
  deriving DecidableEq

inductive MediaType where
  | image
  | video
  deriving DecidableEq

structure MediaItem where
  path : String
  mediaType : Option MediaType
  deriving DecidableEq

structure ImageFit where
  x : ℚ
  y : ℚ
  width : ℚ
  height : ℚ
  scale : ℚ
  deriving DecidableEq

structure DragStart where
  x : ℚ
  y : ℚ
  panX : ℚ
  panY : ℚ
  deriving DecidableEq

/-- The reactive state owned by `useCanvasImageViewer` (source lines 34-58). -/
structure ViewerState where
  zoom : ℚ
  panX : ℚ
  panY : ℚ
  isDragging : Bool
  dragStart : DragStart
  isLoading : Bool
  loadedImage : Option LoadedImage
  imageFit : ImageFit
  isInitialized : Bool
  canvasReady : Bool
  containerReady : Bool
  deriving DecidableEq

def MIN_ZOOM : ℚ := 0.1

def MAX_ZOOM : ℚ := 10

/-- `constrainPan` (source lines 194-214): clamp pan to keep the image
within bounds; each axis independently clamped to half the overflow. -/
def constrainPan (vp : Viewport) (s : ViewerState) : ViewerState :=
  if s.containerReady = false ∨ s.loadedImage = none then s
  else
    let fit := s.imageFit
    let zoomedWidth := fit.width * s.zoom
    let zoomedHeight := fit.height * s.zoom
    let overflowX := max 0 (zoomedWidth - vp.width)
    let overflowY := max 0 (zoomedHeight - vp.height)
    let maxPanX := overflowX / 2
    let maxPanY := overflowY / 2
    { s with
      panX := max (-maxPanX) (min maxPanX s.panX)
      panY := max (-maxPanY) (min maxPanY s.panY) }

/-- The object-fit contain placement computed by `calculateImageFit`
(source lines 105-135): letterboxed, aspect-preserving, centered. -/
def computeFit (vp : Viewport) (img : LoadedImage) : ImageFit :=
  let viewportWidth := vp.width
  let viewportHeight := vp.height
  let imageRatio := img.naturalWidth / img.naturalHeight
  let viewportRatio := viewportWidth / viewportHeight
  -- image wider than viewport: fit by width, otherwise fit by height
  let fitWidth :=
    if viewportRatio < imageRatio then viewportWidth
    else viewportHeight * imageRatio
  let fitHeight :=
    if viewportRatio < imageRatio then viewportWidth / imageRatio
    else viewportHeight
  let scale :=
    if viewportRatio < imageRatio then viewportWidth / img.naturalWidth
    else viewportHeight / img.naturalHeight
  { x := (viewportWidth - fitWidth) / 2
    y := (viewportHeight - fitHeight) / 2
    width := fitWidth, height := fitHeight, scale := scale }

/-- `calculateImageFit` (source lines 99-136): guard on the refs and the
loaded image, then store the recomputed fit. -/
def calculateImageFit (vp : Viewport) (s : ViewerState) : ViewerState :=
  match s.loadedImage with
  | none => s
  | some img =>
    if s.canvasReady = false ∨ s.containerReady = false then s
    else { s with imageFit := computeFit vp img }

/-- `handleResize` (source lines 313-357): skipped when refs are missing or
the container has zero size; the canvas pixel-buffer sizing and DPR
transform are rendering-only, so the modelled effect is `calculateImageFit`. -/
def handleResize (vp : Viewport) (s : ViewerState) : ViewerState :=
  if s.canvasReady = false ∨ s.containerReady = false then s
  else if vp.width = 0 ∨ vp.height = 0 then s
  else calculateImageFit vp s

/-- `resetView` (source lines 298-304): zoom back to 1 (the fit-to-screen
level), pan to the origin, recompute the fit, request a render. -/
def resetView (vp : Viewport) (s : ViewerState) : ViewerState :=
  calculateImageFit vp { s with zoom := 1, panX := 0, panY := 0 }

/-- Outcome of the asynchronous decode started by `loadImage`: either the
`img.onload` callback fires with the decoded bitmap, or `img.onerror` fires. -/
inductive LoadOutcome where
  | onload (img : LoadedImage)
  | onerror
  deriving DecidableEq

/-- `loadImage` (source lines 64-94).  Returns the post state together with
the promise result (`Except.error` models the rejected promise). -/
def loadImage (vp : Viewport) (imagePath : String) (outcome : LoadOutcome)
    (s : ViewerState) : ViewerState × Except String Unit :=
  if s.isInitialized = false then (s, Except.ok ())
  else
    let s1 := { s with isLoading := true }
    match outcome with
    | LoadOutcome.onload img =>
        let s2 := { s1 with loadedImage := some img, isLoading := false }
        let s3 := handleResize vp s2
        (resetView vp s3, Except.ok ())
    | LoadOutcome.onerror =>
        ({ s1 with isLoading := false }, Except.error "Failed to load image")

/-- The zoom update and pan re-solve of `handleWheel` (source lines 224-251),
i.e. everything between the guard and the final `constrainPan`.  Split out
so that the pan produced in the re-solve step can be inspected before the
pan clamp applies. -/
def handleWheelCore (rect : CanvasRect) (event : WheelEventQ)
    (s : ViewerState) : ViewerState :=
  let mouseX := event.clientX - rect.left
  let mouseY := event.clientY - rect.top
  let fit := s.imageFit
  let imageX := (mouseX - fit.x - s.panX - (fit.width - fit.width * s.zoom) / 2) / s.zoom
  let imageY := (mouseY - fit.y - s.panY - (fit.height - fit.height * s.zoom) / 2) / s.zoom
  let delta := -event.deltaY * 0.001
  let oldZoom := s.zoom
  let newZoom := max MIN_ZOOM (min MAX_ZOOM (s.zoom + delta))
  let s1 := { s with zoom := newZoom }
  if newZoom ≠ oldZoom then
    { s1 with
      panX := mouseX - fit.x - imageX * fit.scale * newZoom
              - (fit.width - fit.width * newZoom) / 2
      panY := mouseY - fit.y - imageY * fit.scale * newZoom
              - (fit.height - fit.height * newZoom) / 2 }
  else s1

/-- `handleWheel` (source lines 219-255): guard, zoom update and pan
re-solve, then `constrainPan` (the `requestRender` is rendering-only). -/
def handleWheel (vp : Viewport) (rect : CanvasRect) (event : WheelEventQ)
    (s : ViewerState) : ViewerState :=
  if s.canvasReady = false ∨ s.loadedImage = none then s
  else constrainPan vp (handleWheelCore rect event s)

/-- `handleMouseDown` (source lines 260-270): only start a drag when zoomed
past the fit-to-screen level 1. -/
def handleMouseDown (event : MouseEventQ) (s : ViewerState) : ViewerState :=
  if s.zoom ≤ 1 then s
  else
    { s with
      isDragging := true
      dragStart :=
        { x := event.clientX, y := event.clientY, panX := s.panX, panY := s.panY } }

/-- `handleMouseMove` (source lines 275-286). -/
def handleMouseMove (vp : Viewport) (event : MouseEventQ)
    (s : ViewerState) : ViewerState :=
  if s.isDragging = false then s
  else
    let deltaX := event.clientX - s.dragStart.x
    let deltaY := event.clientY - s.dragStart.y
    constrainPan vp
      { s with panX := s.dragStart.panX + deltaX, panY := s.dragStart.panY + deltaY }

/-- `handleMouseUp` (source lines 291-293). -/
def handleMouseUp (s : ViewerState) : ViewerState :=
  { s with isDragging := false }

/-- The optional chaining `currentImage.value?.path` of the watcher getter
(source line 363); `undefined` is modelled by the empty string, which is
falsy in JS exactly like `undefined`. -/
def mediaPath : Option MediaItem → String
  | some item => item.path
  | none => ""

/-- The optional chaining `currentImage.value?.mediaType` (source line 363). -/
def mediaKind : Option MediaItem → Option MediaType
  | some item => item.mediaType
  | none => none

/-- The `watch(currentImage)` callback (source lines 362-375): load when the
new value has a truthy path and media type image, otherwise clear the
loaded image (and only request a render). -/
def onMediaChange (vp : Viewport) (newMedia : Option MediaItem)
    (outcome : LoadOutcome) (s : ViewerState) : ViewerState × Except String Unit :=
  if mediaPath newMedia ≠ "" ∧ mediaKind newMedia = some MediaType.image then
    loadImage vp (mediaPath newMedia) outcome s
  else
    ({ s with loadedImage := none }, Except.ok ())

/-- Screen x-coordinate at which `render` (source lines 141-179) draws the
image point with natural x-coordinate `u`: `drawImage` maps the source
rectangle `[0, naturalWidth]` onto the destination rectangle starting at
`fit.x + panX + (fit.width - zoomedWidth) / 2` of width `zoomedWidth`. -/
def renderPosX (s : ViewerState) (img : LoadedImage) (u : ℚ) : ℚ :=
  let fit := s.imageFit
  let zoomedWidth := fit.width * s.zoom
  let x := fit.x + s.panX + (fit.width - zoomedWidth) / 2
  x + u * (zoomedWidth / img.naturalWidth)

/-- Viewer state right after the mount sequence of the `watchEffect`
(source lines 383-418): both refs available, canvas sized, `isInitialized`
set, and the reactive state still at its declaration defaults
(zoom 1, pan (0,0), nothing loaded; source lines 40-55). -/
def initialMountedState : ViewerState :=
  { zoom := 1, panX := 0, panY := 0, isDragging := false
    dragStart := { x := 0, y := 0, panX := 0, panY := 0 }
    isLoading := false, loadedImage := none
    imageFit := { x := 0, y := 0, width := 0, height := 0, scale := 1 }
    isInitialized := true, canvasReady := true, containerReady := true }

/-- One externally observable operation on the mounted viewer. -/
inductive ViewerOp where
  | wheel (rect : CanvasRect) (ev : WheelEventQ)
  | mouseDown (ev : MouseEventQ)
  | mouseMove (ev : MouseEventQ)
  | mouseUp
  | reset
  | resize
  | mediaChange (m : Option MediaItem) (outcome : LoadOutcome)
  deriving DecidableEq

def applyOp (vp : Viewport) (s : ViewerState) : ViewerOp → ViewerState
  | ViewerOp.wheel rect ev => handleWheel vp rect ev s
  | ViewerOp.mouseDown ev => handleMouseDown ev s
  | ViewerOp.mouseMove ev => handleMouseMove vp ev s
  | ViewerOp.mouseUp => handleMouseUp s
  | ViewerOp.reset => resetView vp s
  | ViewerOp.resize => handleResize vp s
  | ViewerOp.mediaChange m outcome => (onMediaChange vp m outcome s).1

def applyOps (vp : Viewport) (ops : List ViewerOp) (s : ViewerState) : ViewerState :=
  ops.foldl (applyOp vp) s

/-- Wheel and move events, the two operations that modify pan. -/
inductive PointerEvt where
  | wheelEvt (rect : CanvasRect) (ev : WheelEventQ)
  | moveEvt (ev : MouseEventQ)
  deriving DecidableEq

def applyPointer (vp : Viewport) (s : ViewerState) : PointerEvt → ViewerState
  | PointerEvt.wheelEvt rect ev => handleWheel vp rect ev s
  | PointerEvt.moveEvt ev => handleMouseMove vp ev s

/-- The pan bound enforced by `constrainPan`: on each axis the pan magnitude
is at most half the overflow of the zoomed image over the viewport. -/
def panBounds (vp : Viewport) (s : ViewerState) : Prop :=
  |s.panX| ≤ max 0 (s.imageFit.width * s.zoom - vp.width) / 2 ∧
  |s.panY| ≤ max 0 (s.imageFit.height * s.zoom - vp.height) / 2

/-- Well-formed fit: nonnegative and no larger than the viewport, as
`calculateImageFit` produces on a positive viewport. -/
def wfFit (vp : Viewport) (f : ImageFit) : Prop :=
  0 ≤ f.width ∧ 0 ≤ f.height ∧ f.width ≤ vp.width ∧ f.height ≤ vp.height

/-- Images handed to the viewer by a decode have positive natural size. -/
def opImagesPos : ViewerOp → Prop
  | ViewerOp.mediaChange _ (LoadOutcome.onload img) =>
      0 < img.naturalWidth ∧ 0 < img.naturalHeight
  | _ => True

/-- Inductive invariant of the mounted viewer used for the reachable-state
claims: the mount flags stay set, the fit stays well formed, any loaded
image has positive natural size, and with an image loaded the pan is zero
at minimum zoom. -/
def MountedInv (vp : Viewport) (s : ViewerState) : Prop :=
  s.isInitialized = true ∧ s.canvasReady = true ∧ s.containerReady = true ∧
  wfFit vp s.imageFit ∧
  (∀ img, s.loadedImage = some img → 0 < img.naturalWidth ∧ 0 < img.naturalHeight) ∧
  (s.loadedImage.isSome = true → s.zoom = MIN_ZOOM → s.panX = 0 ∧ s.panY = 0)

/-! ### Projection and clamp lemmas -/

lemma clamp_zero (p : ℚ) : max (0:ℚ) (min 0 p) = 0 :=
  max_eq_left (min_le_left 0 p)

lemma abs_clamp_le {m p : ℚ} (hm : 0 ≤ m) : |max (-m) (min m p)| ≤ m := by
  rw [abs_le]
  exact ⟨le_max_left _ _, max_le (by linarith) (min_le_left _ _)⟩

lemma constrainPan_same (vp : Viewport) (s : ViewerState) :
    (constrainPan vp s).zoom = s.zoom ∧
    (constrainPan vp s).imageFit = s.imageFit ∧
    (constrainPan vp s).loadedImage = s.loadedImage ∧
    (constrainPan vp s).isInitialized = s.isInitialized ∧
    (constrainPan vp s).canvasReady = s.canvasReady ∧
    (constrainPan vp s).containerReady = s.containerReady ∧
    (constrainPan vp s).isDragging = s.isDragging ∧
    (constrainPan vp s).isLoading = s.isLoading ∧
    (constrainPan vp s).dragStart = s.dragStart := by
  unfold constrainPan
  split <;> simp

lemma constrainPan_panX (vp : Viewport) (s : ViewerState)
    (hc : s.containerReady = true) (hi : s.loadedImage ≠ none) :
    (constrainPan vp s).panX =
      max (-(max 0 (s.imageFit.width * s.zoom - vp.width) / 2))
        (min (max 0 (s.imageFit.width * s.zoom - vp.width) / 2) s.panX) := by
  unfold constrainPan
  rw [if_neg (by simp [hc, hi])]

lemma constrainPan_panY (vp : Viewport) (s : ViewerState)
    (hc : s.containerReady = true) (hi : s.loadedImage ≠ none) :
    (constrainPan vp s).panY =
      max (-(max 0 (s.imageFit.height * s.zoom - vp.height) / 2))
        (min (max 0 (s.imageFit.height * s.zoom - vp.height) / 2) s.panY) := by
  unfold constrainPan
  rw [if_neg (by simp [hc, hi])]

lemma constrainPan_bounds (vp : Viewport) (s : ViewerState)
    (hc : s.containerReady = true) (hi : s.loadedImage ≠ none) :
    panBounds vp (constrainPan vp s) := by
  obtain ⟨hz, hf, -⟩ := constrainPan_same vp s
  unfold panBounds
  rw [hz, hf, constrainPan_panX vp s hc hi, constrainPan_panY vp s hc hi]
  constructor
  · exact abs_clamp_le (div_nonneg (le_max_left _ _) (by norm_num))
  · exact abs_clamp_le (div_nonneg (le_max_left _ _) (by norm_num))

lemma constrainPan_rest (vp : Viewport) (s : ViewerState)
    (hc : s.containerReady = true) (hi : s.loadedImage ≠ none)
    (hzw : s.imageFit.width * s.zoom ≤ vp.width)
    (hzh : s.imageFit.height * s.zoom ≤ vp.height) :
    (constrainPan vp s).panX = 0 ∧ (constrainPan vp s).panY = 0 := by
  have hx : max 0 (s.imageFit.width * s.zoom - vp.width) = 0 :=
    max_eq_left (by linarith)
  have hy : max 0 (s.imageFit.height * s.zoom - vp.height) = 0 :=
    max_eq_left (by linarith)
  rw [constrainPan_panX vp s hc hi, constrainPan_panY vp s hc hi, hx, hy]
  norm_num [clamp_zero]

lemma handleWheelCore_zoom (rect : CanvasRect) (ev : WheelEventQ) (s : ViewerState) :
    (handleWheelCore rect ev s).zoom =
      max MIN_ZOOM (min MAX_ZOOM (s.zoom + -ev.deltaY * 0.001)) := by
  simp only [handleWheelCore]
  split <;> rfl

lemma handleWheelCore_same (rect : CanvasRect) (ev : WheelEventQ) (s : ViewerState) :
    (handleWheelCore rect ev s).imageFit = s.imageFit ∧
    (handleWheelCore rect ev s).loadedImage = s.loadedImage ∧
    (handleWheelCore rect ev s).isInitialized = s.isInitialized ∧
    (handleWheelCore rect ev s).canvasReady = s.canvasReady ∧
    (handleWheelCore rect ev s).containerReady = s.containerReady ∧
    (handleWheelCore rect ev s).isDragging = s.isDragging ∧
    (handleWheelCore rect ev s).isLoading = s.isLoading ∧
    (handleWheelCore rect ev s).dragStart = s.dragStart := by
  simp only [handleWheelCore]
  split <;> simp

lemma calculateImageFit_same (vp : Viewport) (s : ViewerState) :
    (calculateImageFit vp s).zoom = s.zoom ∧
    (calculateImageFit vp s).panX = s.panX ∧
    (calculateImageFit vp s).panY = s.panY ∧
    (calculateImageFit vp s).loadedImage = s.loadedImage ∧
    (calculateImageFit vp s).isInitialized = s.isInitialized ∧
    (calculateImageFit vp s).canvasReady = s.canvasReady ∧
    (calculateImageFit vp s).containerReady = s.containerReady ∧
    (calculateImageFit vp s).isDragging = s.isDragging ∧
    (calculateImageFit vp s).isLoading = s.isLoading ∧
    (calculateImageFit vp s).dragStart = s.dragStart := by
  unfold calculateImageFit
  rcases h : s.loadedImage with _ | img <;> simp only [h]
  · simp
  · split
    · simp [h]
    · simp [h]

lemma handleResize_same (vp : Viewport) (s : ViewerState) :
    (handleResize vp s).zoom = s.zoom ∧
    (handleResize vp s).panX = s.panX ∧
    (handleResize vp s).panY = s.panY ∧
    (handleResize vp s).loadedImage = s.loadedImage ∧
    (handleResize vp s).isInitialized = s.isInitialized ∧
    (handleResize vp s).canvasReady = s.canvasReady ∧
    (handleResize vp s).containerReady = s.containerReady ∧
    (handleResize vp s).isDragging = s.isDragging ∧
    (handleResize vp s).isLoading = s.isLoading ∧
    (handleResize vp s).dragStart = s.dragStart := by
  unfold handleResize
  split
  · simp
  · split
    · simp
    · exact calculateImageFit_same vp s

lemma resetView_view (vp : Viewport) (s : ViewerState) :
    (resetView vp s).zoom = 1 ∧ (resetView vp s).panX = 0 ∧
    (resetView vp s).panY = 0 := by
  unfold resetView
  obtain ⟨hz, hx, hy, -⟩ :=
    calculateImageFit_same vp { s with zoom := 1, panX := 0, panY := 0 }
  exact ⟨hz, hx, hy⟩

lemma resetView_same (vp : Viewport) (s : ViewerState) :
    (resetView vp s).loadedImage = s.loadedImage ∧
    (resetView vp s).isInitialized = s.isInitialized ∧
    (resetView vp s).canvasReady = s.canvasReady ∧
    (resetView vp s).containerReady = s.containerReady ∧
    (resetView vp s).isDragging = s.isDragging ∧
    (resetView vp s).isLoading = s.isLoading := by
  unfold resetView
  obtain ⟨-, -, -, hli, hii, hcv, hct, hd, hl, -⟩ :=
    calculateImageFit_same vp { s with zoom := 1, panX := 0, panY := 0 }
  exact ⟨hli, hii, hcv, hct, hd, hl⟩

lemma computeFit_wf (vp : Viewport) (img : LoadedImage)
    (hw : 0 < vp.width) (hh : 0 < vp.height)
    (hnw : 0 < img.naturalWidth) (hnh : 0 < img.naturalHeight) :
    wfFit vp (computeFit vp img) := by
  have hratio : 0 < img.naturalWidth / img.naturalHeight := div_pos hnw hnh
  unfold computeFit wfFit
  by_cases hr : vp.width / vp.height < img.naturalWidth / img.naturalHeight
  · simp only [if_pos hr]
    refine ⟨hw.le, div_nonneg hw.le hratio.le, le_refl _, ?_⟩
    rw [div_le_iff hratio]
    have h2 := (div_lt_iff hh).mp hr
    rw [mul_comm] at h2
    linarith
  · simp only [if_neg hr]
    refine ⟨mul_nonneg hh.le hratio.le, hh.le, ?_, le_refl _⟩
    have h2 := (le_div_iff hh).mp (not_lt.mp hr)
    rw [mul_comm] at h2
    linarith

lemma calculateImageFit_wf (vp : Viewport) (s : ViewerState)
    (hw : 0 < vp.width) (hh : 0 < vp.height)
    (hpos : ∀ img, s.loadedImage = some img →
      0 < img.naturalWidth ∧ 0 < img.naturalHeight)
    (hwf : wfFit vp s.imageFit) :
    wfFit vp (calculateImageFit vp s).imageFit := by
  unfold calculateImageFit
  rcases h : s.loadedImage with _ | img <;> simp only [h]
  · exact hwf
  · obtain ⟨hnw, hnh⟩ := hpos img h
    split
    · exact hwf
    · exact computeFit_wf vp img hw hh hnw hnh

/-! ### Invariant preservation over viewer operations -/

lemma handleResize_wf (vp : Viewport) (s : ViewerState)
    (hw : 0 < vp.width) (hh : 0 < vp.height)
    (hpos : ∀ img, s.loadedImage = some img →
      0 < img.naturalWidth ∧ 0 < img.naturalHeight)
    (hwf : wfFit vp s.imageFit) :
    wfFit vp (handleResize vp s).imageFit := by
  unfold handleResize
  split
  · exact hwf
  · split
    · exact hwf
    · exact calculateImageFit_wf vp s hw hh hpos hwf

lemma mountedInv_wheel (vp : Viewport) (rect : CanvasRect) (ev : WheelEventQ)
    (s : ViewerState) (hinv : MountedInv vp s) :
    MountedInv vp (handleWheel vp rect ev s) := by
  obtain ⟨hI, hCv, hCt, hwf, hpos, hrest⟩ := hinv
  unfold handleWheel
  split
  · exact ⟨hI, hCv, hCt, hwf, hpos, hrest⟩
  · rename_i hguard
    push_neg at hguard
    obtain ⟨-, hli⟩ := hguard
    obtain ⟨htf, htl, hti, htcv, htct, -, -, -⟩ := handleWheelCore_same rect ev s
    obtain ⟨hcz, hcf, hcl, hci, hccv, hcct, -, -, -⟩ :=
      constrainPan_same vp (handleWheelCore rect ev s)
    obtain ⟨hwf0, hwf1, hwf2, hwf3⟩ := hwf
    refine ⟨?_, ?_, ?_, ?_, ?_, ?_⟩
    · rw [hci, hti]; exact hI
    · rw [hccv, htcv]; exact hCv
    · rw [hcct, htct]; exact hCt
    · rw [hcf, htf]; exact ⟨hwf0, hwf1, hwf2, hwf3⟩
    · intro img h; rw [hcl, htl] at h; exact hpos img h
    · intro hsome hz
      rw [hcz] at hz
      refine constrainPan_rest vp (handleWheelCore rect ev s)
        (by rw [htct]; exact hCt) (by rw [htl]; exact hli) ?_ ?_
      · rw [htf, hz]
        calc s.imageFit.width * MIN_ZOOM ≤ s.imageFit.width := by
              apply mul_le_of_le_one_right hwf0
              norm_num [MIN_ZOOM]
          _ ≤ vp.width := hwf2
      · rw [htf, hz]
        calc s.imageFit.height * MIN_ZOOM ≤ s.imageFit.height := by
              apply mul_le_of_le_one_right hwf1
              norm_num [MIN_ZOOM]
          _ ≤ vp.height := hwf3

lemma mountedInv_mouseDown (vp : Viewport) (ev : MouseEventQ) (s : ViewerState)
    (hinv : MountedInv vp s) : MountedInv vp (handleMouseDown ev s) := by
  obtain ⟨hI, hCv, hCt, hwf, hpos, hrest⟩ := hinv
  unfold handleMouseDown
  split
  · exact ⟨hI, hCv, hCt, hwf, hpos, hrest⟩
  · exact ⟨hI, hCv, hCt, hwf, hpos, hrest⟩

lemma mountedInv_constrainPan_panset (vp : Viewport) (s : ViewerState) (px py : ℚ)
    (hinv : MountedInv vp s) :
    MountedInv vp (constrainPan vp { s with panX := px, panY := py }) := by
  obtain ⟨hI, hCv, hCt, hwf, hpos, -⟩ := hinv
  obtain ⟨hwf0, hwf1, hwf2, hwf3⟩ := hwf
  by_cases hQ : s.loadedImage = none
  · unfold constrainPan
    rw [if_pos (Or.inr (show ({ s with panX := px, panY := py } :
      ViewerState).loadedImage = none from hQ))]
    refine ⟨hI, hCv, hCt, ⟨hwf0, hwf1, hwf2, hwf3⟩, ?_, ?_⟩
    · intro img h
      have h2 : s.loadedImage = some img := h
      rw [hQ] at h2
      exact Option.noConfusion h2
    · intro hsome
      have h2 : s.loadedImage.isSome = true := hsome
      rw [hQ] at h2
      simp at h2
  · have hne : ({ s with panX := px, panY := py } : ViewerState).loadedImage ≠ none := hQ
    obtain ⟨hcz, hcf, hcl, hci, hccv, hcct, -, -, -⟩ :=
      constrainPan_same vp { s with panX := px, panY := py }
    refine ⟨by rw [hci]; exact hI, by rw [hccv]; exact hCv, by rw [hcct]; exact hCt,
      by rw [hcf]; exact ⟨hwf0, hwf1, hwf2, hwf3⟩, ?_, ?_⟩
    · intro img2 h
      rw [hcl] at h
      exact hpos img2 h
    · intro hsome hz
      rw [hcz] at hz
      refine constrainPan_rest vp _ hCt hne ?_ ?_
      · rw [hz]
        show s.imageFit.width * MIN_ZOOM ≤ vp.width
        calc s.imageFit.width * MIN_ZOOM ≤ s.imageFit.width := by
              apply mul_le_of_le_one_right hwf0
              norm_num [MIN_ZOOM]
          _ ≤ vp.width := hwf2
      · rw [hz]
        show s.imageFit.height * MIN_ZOOM ≤ vp.height
        calc s.imageFit.height * MIN_ZOOM ≤ s.imageFit.height := by
              apply mul_le_of_le_one_right hwf1
              norm_num [MIN_ZOOM]
          _ ≤ vp.height := hwf3

lemma mountedInv_mouseMove (vp : Viewport) (ev : MouseEventQ) (s : ViewerState)
    (hinv : MountedInv vp s) : MountedInv vp (handleMouseMove vp ev s) := by
  unfold handleMouseMove
  split
  · exact hinv
  · exact mountedInv_constrainPan_panset vp s _ _ hinv

lemma mountedInv_mouseUp (vp : Viewport) (s : ViewerState) (hinv : MountedInv vp s) :
    MountedInv vp (handleMouseUp s) := by
  obtain ⟨hI, hCv, hCt, hwf, hpos, hrest⟩ := hinv
  exact ⟨hI, hCv, hCt, hwf, hpos, hrest⟩

lemma mountedInv_resize (vp : Viewport) (s : ViewerState)
    (hw : 0 < vp.width) (hh : 0 < vp.height) (hinv : MountedInv vp s) :
    MountedInv vp (handleResize vp s) := by
  obtain ⟨hI, hCv, hCt, hwf, hpos, hrest⟩ := hinv
  have hwfR := handleResize_wf vp s hw hh hpos hwf
  obtain ⟨hz, hx, hy, hli, hii, hcv, hct, -, -, -⟩ := handleResize_same vp s
  refine ⟨by rw [hii]; exact hI, by rw [hcv]; exact hCv, by rw [hct]; exact hCt,
    hwfR, ?_, ?_⟩
  · intro img h
    rw [hli] at h
    exact hpos img h
  · intro hsome hzz
    rw [hli] at hsome
    rw [hz] at hzz
    obtain ⟨hpx, hpy⟩ := hrest hsome hzz
    rw [hx, hy]
    exact ⟨hpx, hpy⟩

lemma mountedInv_reset (vp : Viewport) (s : ViewerState)
    (hw : 0 < vp.width) (hh : 0 < vp.height) (hinv : MountedInv vp s) :
    MountedInv vp (resetView vp s) := by
  obtain ⟨hI, hCv, hCt, hwf, hpos, -⟩ := hinv
  obtain ⟨hli, hii, hcv, hct, -, -⟩ := resetView_same vp s
  obtain ⟨-, hx, hy⟩ := resetView_view vp s
  refine ⟨by rw [hii]; exact hI, by rw [hcv]; exact hCv, by rw [hct]; exact hCt,
    ?_, ?_, ?_⟩
  · unfold resetView
    exact calculateImageFit_wf vp _ hw hh hpos hwf
  · intro img h
    rw [hli] at h
    exact hpos img h
  · intro hsome hzz
    exact ⟨hx, hy⟩

lemma mountedInv_load_chain (vp : Viewport) (u : ViewerState)
    (hw : 0 < vp.width) (hh : 0 < vp.height)
    (hI : u.isInitialized = true) (hCv : u.canvasReady = true)
    (hCt : u.containerReady = true) (hwf : wfFit vp u.imageFit)
    (hpos : ∀ img, u.loadedImage = some img →
      0 < img.naturalWidth ∧ 0 < img.naturalHeight) :
    MountedInv vp (resetView vp (handleResize vp u)) := by
  obtain ⟨-, -, -, hli2, hii2, hcv2, hct2, -, -, -⟩ := handleResize_same vp u
  have hwf3 : wfFit vp (handleResize vp u).imageFit := handleResize_wf vp u hw hh hpos hwf
  have hpos3 : ∀ img, (handleResize vp u).loadedImage = some img →
      0 < img.naturalWidth ∧ 0 < img.naturalHeight := by
    intro img h
    rw [hli2] at h
    exact hpos img h
  obtain ⟨hliR, hiiR, hcvR, hctR, -, -⟩ := resetView_same vp (handleResize vp u)
  obtain ⟨-, hxR, hyR⟩ := resetView_view vp (handleResize vp u)
  refine ⟨by rw [hiiR, hii2]; exact hI, by rw [hcvR, hcv2]; exact hCv,
    by rw [hctR, hct2]; exact hCt, ?_, ?_, ?_⟩
  · unfold resetView
    exact calculateImageFit_wf vp _ hw hh hpos3 hwf3
  · intro img h
    rw [hliR, hli2] at h
    exact hpos img h
  · intro hsome hzz
    exact ⟨hxR, hyR⟩

lemma mountedInv_mediaChange (vp : Viewport) (m : Option MediaItem)
    (outcome : LoadOutcome) (s : ViewerState)
    (hw : 0 < vp.width) (hh : 0 < vp.height)
    (hop : opImagesPos (ViewerOp.mediaChange m outcome)) (hinv : MountedInv vp s) :
    MountedInv vp (onMediaChange vp m outcome s).1 := by
  obtain ⟨hI, hCv, hCt, hwf, hpos, hrest⟩ := hinv
  unfold onMediaChange
  split
  · unfold loadImage
    rw [if_neg (by simp [hI])]
    rcases outcome with img | _
    · obtain ⟨hnw, hnh⟩ := hop
      exact mountedInv_load_chain vp
        { s with isLoading := false, loadedImage := some img } hw hh hI hCv hCt hwf
        (by intro img2 h
            have h2 : some img = some img2 := h
            cases h2
            exact ⟨hnw, hnh⟩)
    · exact ⟨hI, hCv, hCt, hwf, hpos, hrest⟩
  · refine ⟨hI, hCv, hCt, hwf, ?_, ?_⟩
    · intro img h
      have h2 : (none : Option LoadedImage) = some img := h
      exact Option.noConfusion h2
    · intro hsome
      have h2 : (none : Option LoadedImage).isSome = true := hsome
      simp at h2

lemma mountedInv_applyOp (vp : Viewport) (op : ViewerOp) (s : ViewerState)
    (hw : 0 < vp.width) (hh : 0 < vp.height)
    (hop : opImagesPos op) (hinv : MountedInv vp s) :
    MountedInv vp (applyOp vp s op) := by
  cases op with
  | wheel rect ev => exact mountedInv_wheel vp rect ev s hinv
  | mouseDown ev => exact mountedInv_mouseDown vp ev s hinv
  | mouseMove ev => exact mountedInv_mouseMove vp ev s hinv
  | mouseUp => exact mountedInv_mouseUp vp s hinv
  | reset => exact mountedInv_reset vp s hw hh hinv
  | resize => exact mountedInv_resize vp s hw hh hinv
  | mediaChange m outcome => exact mountedInv_mediaChange vp m outcome s hw hh hop hinv

lemma mountedInv_applyOps (vp : Viewport) (hw : 0 < vp.width) (hh : 0 < vp.height) :
    ∀ (ops : List ViewerOp) (s : ViewerState),
      (∀ op ∈ ops, opImagesPos op) → MountedInv vp s →
      MountedInv vp (applyOps vp ops s) := by
  intro ops
  induction ops with
  | nil => intro s _ hinv; exact hinv
  | cons op rest ih =>
      intro s hops hinv
      exact ih (applyOp vp s op) (fun o ho => hops o (List.mem_cons_of_mem op ho))
        (mountedInv_applyOp vp op s hw hh (hops op (List.mem_cons_self op rest)) hinv)

lemma mountedInv_initial (vp : Viewport) (hw : 0 < vp.width) (hh : 0 < vp.height) :
    MountedInv vp initialMountedState := by
  refine ⟨rfl, rfl, rfl, ⟨le_refl 0, le_refl 0, hw.le, hh.le⟩, ?_, ?_⟩
  · intro img h
    exact Option.noConfusion h
  · intro hsome
    simp [initialMountedState] at hsome

/-! ### Zoom bounds -/

def zoomBounds (z : ℚ) : Prop := MIN_ZOOM ≤ z ∧ z ≤ MAX_ZOOM

lemma zoomClamp_bounds (x : ℚ) : zoomBounds (max MIN_ZOOM (min MAX_ZOOM x)) := by
  constructor
  · exact le_max_left _ _
  · exact max_le (by norm_num [MIN_ZOOM, MAX_ZOOM]) (min_le_left _ _)

lemma constrainPan_zoom (vp : Viewport) (s : ViewerState) :
    (constrainPan vp s).zoom = s.zoom :=
  (constrainPan_same vp s).1

lemma handleWheel_zoomBounds (vp : Viewport) (rect : CanvasRect) (ev : WheelEventQ)
    (s : ViewerState) (h : zoomBounds s.zoom) :
    zoomBounds (handleWheel vp rect ev s).zoom := by
  unfold handleWheel
  split
  · exact h
  · rw [constrainPan_zoom, handleWheelCore_zoom]
    exact zoomClamp_bounds _

lemma loadImage_view (vp : Viewport) (p : String) (outcome : LoadOutcome)
    (s : ViewerState) :
    ((loadImage vp p outcome s).1.zoom = s.zoom ∧
     (loadImage vp p outcome s).1.panX = s.panX ∧
     (loadImage vp p outcome s).1.panY = s.panY) ∨
    ((loadImage vp p outcome s).1.zoom = 1 ∧
     (loadImage vp p outcome s).1.panX = 0 ∧
     (loadImage vp p outcome s).1.panY = 0) := by
  unfold loadImage
  split
  · exact Or.inl ⟨rfl, rfl, rfl⟩
  · rcases outcome with img | _
    · exact Or.inr (resetView_view vp (handleResize vp _))
    · exact Or.inl ⟨rfl, rfl, rfl⟩

lemma applyOp_zoomBounds (vp : Viewport) (op : ViewerOp) (s : ViewerState)
    (h : zoomBounds s.zoom) : zoomBounds (applyOp vp s op).zoom := by
  cases op with
  | wheel rect ev => exact handleWheel_zoomBounds vp rect ev s h
  | mouseDown ev =>
      show zoomBounds (handleMouseDown ev s).zoom
      unfold handleMouseDown
      split
      · exact h
      · exact h
  | mouseMove ev =>
      show zoomBounds (handleMouseMove vp ev s).zoom
      unfold handleMouseMove
      split
      · exact h
      · simp only [constrainPan_zoom]
        exact h
  | mouseUp => exact h
  | reset =>
      obtain ⟨hz, -, -⟩ := resetView_view vp s
      show zoomBounds (resetView vp s).zoom
      rw [hz]
      exact ⟨by norm_num [MIN_ZOOM], by norm_num [MAX_ZOOM]⟩
  | resize =>
      obtain ⟨hz, -⟩ := handleResize_same vp s
      show zoomBounds (handleResize vp s).zoom
      rw [hz]
      exact h
  | mediaChange m outcome =>
      show zoomBounds (onMediaChange vp m outcome s).1.zoom
      unfold onMediaChange
      split
      · rcases loadImage_view vp (mediaPath m) outcome s with ⟨hz, -, -⟩ | ⟨hz, -, -⟩
        · rw [hz]; exact h
        · rw [hz]
          exact ⟨by norm_num [MIN_ZOOM], by norm_num [MAX_ZOOM]⟩
      · exact h

lemma applyOps_zoomBounds (vp : Viewport) :
    ∀ (ops : List ViewerOp) (s : ViewerState), zoomBounds s.zoom →
      zoomBounds (applyOps vp ops s).zoom := by
  intro ops
  induction ops with
  | nil => intro s h; exact h
  | cons op rest ih =>
      intro s h
      exact ih (applyOp vp s op) (applyOp_zoomBounds vp op s h)

lemma wheelFold_zoomBounds (vp : Viewport) :
    ∀ (evs : List (CanvasRect × WheelEventQ)) (s : ViewerState), zoomBounds s.zoom →
      zoomBounds (evs.foldl (fun t e => handleWheel vp e.1 e.2 t) s).zoom := by
  intro evs
  induction evs with
  | nil => intro s h; exact h
  | cons e rest ih =>
      intro s h
      exact ih _ (handleWheel_zoomBounds vp e.1 e.2 s h)

/-! ### Pan bounds -/

lemma handleWheel_panBounds (vp : Viewport) (rect : CanvasRect) (ev : WheelEventQ)
    (s : ViewerState) (hcv : s.canvasReady = true) (hct : s.containerReady = true)
    (hli : s.loadedImage.isSome = true) :
    panBounds vp (handleWheel vp rect ev s) := by
  unfold handleWheel
  rw [if_neg (by push_neg; exact ⟨by simp [hcv], Option.ne_none_iff_isSome.mpr hli⟩)]
  obtain ⟨-, htl, -, -, htct, -, -, -⟩ := handleWheelCore_same rect ev s
  exact constrainPan_bounds vp _ (by rw [htct]; exact hct)
    (by rw [htl]; exact Option.ne_none_iff_isSome.mpr hli)

lemma handleMouseMove_panBounds (vp : Viewport) (ev : MouseEventQ) (s : ViewerState)
    (hct : s.containerReady = true) (hli : s.loadedImage.isSome = true)
    (hd : s.isDragging = true) :
    panBounds vp (handleMouseMove vp ev s) := by
  unfold handleMouseMove
  rw [if_neg (by simp [hd])]
  exact constrainPan_bounds vp _ hct (Option.ne_none_iff_isSome.mpr hli)

lemma handleMouseMove_panBounds_preserve (vp : Viewport) (ev : MouseEventQ)
    (s : ViewerState) (hct : s.containerReady = true)
    (hli : s.loadedImage.isSome = true) (hpb : panBounds vp s) :
    panBounds vp (handleMouseMove vp ev s) := by
  unfold handleMouseMove
  split
  · exact hpb
  · exact constrainPan_bounds vp _ hct (Option.ne_none_iff_isSome.mpr hli)

lemma constrainPan_panset_flags (vp : Viewport) (s : ViewerState) (px py : ℚ) :
    (constrainPan vp { s with panX := px, panY := py }).canvasReady = s.canvasReady ∧
    (constrainPan vp { s with panX := px, panY := py }).containerReady =
      s.containerReady ∧
    (constrainPan vp { s with panX := px, panY := py }).loadedImage = s.loadedImage := by
  obtain ⟨-, -, hcl, -, hccv, hcct, -, -, -⟩ :=
    constrainPan_same vp { s with panX := px, panY := py }
  exact ⟨hccv, hcct, hcl⟩

lemma applyPointer_flags (vp : Viewport) (e : PointerEvt) (s : ViewerState) :
    (applyPointer vp s e).canvasReady = s.canvasReady ∧
    (applyPointer vp s e).containerReady = s.containerReady ∧
    (applyPointer vp s e).loadedImage = s.loadedImage := by
  cases e with
  | wheelEvt rect ev =>
      show (handleWheel vp rect ev s).canvasReady = s.canvasReady ∧
        (handleWheel vp rect ev s).containerReady = s.containerReady ∧
        (handleWheel vp rect ev s).loadedImage = s.loadedImage
      unfold handleWheel
      split
      · exact ⟨rfl, rfl, rfl⟩
      · obtain ⟨-, htl, -, htcv, htct, -, -, -⟩ := handleWheelCore_same rect ev s
        obtain ⟨-, -, hcl, -, hccv, hcct, -, -, -⟩ :=
          constrainPan_same vp (handleWheelCore rect ev s)
        exact ⟨by rw [hccv, htcv], by rw [hcct, htct], by rw [hcl, htl]⟩
  | moveEvt ev =>
      show (handleMouseMove vp ev s).canvasReady = s.canvasReady ∧
        (handleMouseMove vp ev s).containerReady = s.containerReady ∧
        (handleMouseMove vp ev s).loadedImage = s.loadedImage
      unfold handleMouseMove
      split
      · exact ⟨rfl, rfl, rfl⟩
      · exact constrainPan_panset_flags vp s _ _

lemma pointerTrace_panBounds (vp : Viewport) :
    ∀ (evs : List PointerEvt) (s : ViewerState),
      s.canvasReady = true → s.containerReady = true →
      s.loadedImage.isSome = true → panBounds vp s →
      panBounds vp (evs.foldl (applyPointer vp) s) := by
  intro evs
  induction evs with
  | nil => intro s _ _ _ hpb; exact hpb
  | cons e rest ih =>
      intro s hcv hct hli hpb
      obtain ⟨hfc, hfct, hfl⟩ := applyPointer_flags vp e s
      refine ih (applyPointer vp s e) (by rw [hfc]; exact hcv)
        (by rw [hfct]; exact hct) (by rw [hfl]; exact hli) ?_
      cases e with
      | wheelEvt rect ev => exact handleWheel_panBounds vp rect ev s hcv hct hli
      | moveEvt ev => exact handleMouseMove_panBounds_preserve vp ev s hct hli hpb

/-! ### Concrete states for witnesses and counterexamples -/

def exVp : Viewport := { width := 200, height := 150 }

def exImg : LoadedImage := { naturalWidth := 400, naturalHeight := 300 }

/-- Fit of a 400 by 300 image in the 200 by 150 viewport: the whole viewport,
at half the natural scale (this equals `computeFit exVp exImg`). -/
def exFit : ImageFit := { x := 0, y := 0, width := 200, height := 150, scale := 1/2 }

/-- A mounted viewer displaying `exImg` at the fit-to-screen zoom. -/
def exState : ViewerState :=
  { zoom := 1, panX := 0, panY := 0, isDragging := false
    dragStart := { x := 0, y := 0, panX := 0, panY := 0 }
    isLoading := false, loadedImage := some exImg, imageFit := exFit
    isInitialized := true, canvasReady := true, containerReady := true }

def exZoomedState : ViewerState := { exState with zoom := 2, panX := 5, panY := 7 }

def exHalfZoomState : ViewerState := { exState with zoom := 1/2 }

def exUninitState : ViewerState := { exState with isInitialized := false }

def exVideoItem : MediaItem := { path := "b.mp4", mediaType := some MediaType.video }

def exImageItem : MediaItem := { path := "a.png", mediaType := some MediaType.image }

instance decOpImagesPos : DecidablePred opImagesPos := fun op =>
  match op with
  | ViewerOp.wheel _ _ => isTrue trivial
  | ViewerOp.mouseDown _ => isTrue trivial
  | ViewerOp.mouseMove _ => isTrue trivial
  | ViewerOp.mouseUp => isTrue trivial
  | ViewerOp.reset => isTrue trivial
  | ViewerOp.resize => isTrue trivial
  | ViewerOp.mediaChange _ (LoadOutcome.onload img) =>
      inferInstanceAs (Decidable (0 < img.naturalWidth ∧ 0 < img.naturalHeight))
  | ViewerOp.mediaChange _ LoadOutcome.onerror => isTrue trivial

/-! ### Claim C1 -/

/-- Claim C1 (refuted; the code contradicts its own intent): cursor-anchored
zoom fails whenever `imageFit.scale` differs from 1.  At the failing input —
`exState` (zoom 1, pan 0, fit scale 1/2), cursor at (100, 75), wheel delta
-500, so `newZoom` becomes 3/2 — the image point with natural x-coordinate
200 sits at screen x 100 (under the cursor) before the event, but after the
pan re-solve of step 3 (`handleWheelCore`, before the pan clamp) the same
point renders at screen x 175, not 100; after the full `handleWheel`
(clamp included) it renders at 150.  `handleWheel` divides by `zoom` but
not by `fit.scale` when computing `imageX`, then multiplies by
`fit.scale * newZoom` when re-solving the pan, so the anchor drifts by a
factor `fit.scale` of the cursor offset. -/
theorem cursor_anchor_bug_eval :
    renderPosX exState exImg 200 = 100 ∧
    (handleWheelCore { left := 0, top := 0 }
        { clientX := 100, clientY := 75, deltaY := -500 } exState).zoom = 3/2 ∧
    renderPosX (handleWheelCore { left := 0, top := 0 }
        { clientX := 100, clientY := 75, deltaY := -500 } exState) exImg 200 = 175 ∧
    renderPosX (handleWheel exVp { left := 0, top := 0 }
        { clientX := 100, clientY := 75, deltaY := -500 } exState) exImg 200 = 150 := by
  norm_num [renderPosX, handleWheel, handleWheelCore, constrainPan, exState, exFit,
    exImg, exVp, MIN_ZOOM, MAX_ZOOM, max_def, min_def, Option.some_ne_none]

/-! ### Claim C2 -/

/-- Claim C2 counterexample: `resetView` does not set zoom to
`MIN_ZOOM` (0.1); it sets zoom to 1. -/
theorem resetView_not_minZoom_cex :
    (resetView exVp exState).zoom = 1 ∧ (resetView exVp exState).zoom ≠ MIN_ZOOM := by
  obtain ⟨hz, -, -⟩ := resetView_view exVp exState
  refine ⟨hz, ?_⟩
  rw [hz]
  norm_num [MIN_ZOOM]

/-- Claim C2 (amended): `resetView` sets zoom to 1 — the fit-to-screen
default, which is not the minimum zoom `MIN_ZOOM = 0.1` — and pan to (0,0),
then recomputes the image fit; after every call the post-state satisfies
`zoom == 1` and `panX == panY == 0`. -/
theorem resetView_defaults (vp : Viewport) (s : ViewerState) :
    (resetView vp s).zoom = 1 ∧ (resetView vp s).panX = 0 ∧
    (resetView vp s).panY = 0 ∧ (resetView vp s).zoom ≠ MIN_ZOOM := by
  obtain ⟨hz, hx, hy⟩ := resetView_view vp s
  refine ⟨hz, hx, hy, ?_⟩
  rw [hz]
  norm_num [MIN_ZOOM]

/-! ### Claim C3 -/

/-- Claim C3 counterexample: changing `currentMedia` (here to a video item,
a path change) from a zoomed and panned state does not reset zoom or pan to
their defaults (zoom 1, pan 0): zoom stays 2 and panX stays 5. -/
theorem mediaChange_no_reset_cex :
    (onMediaChange exVp (some exVideoItem) LoadOutcome.onerror exZoomedState).1.zoom
        = 2 ∧
    (onMediaChange exVp (some exVideoItem) LoadOutcome.onerror exZoomedState).1.zoom
        ≠ 1 ∧
    (onMediaChange exVp (some exVideoItem) LoadOutcome.onerror exZoomedState).1.panX
        ≠ 0 := by
  have hcond : ¬(mediaPath (some exVideoItem) ≠ "" ∧
      mediaKind (some exVideoItem) = some MediaType.image) := by
    simp [mediaPath, mediaKind, exVideoItem]
  unfold onMediaChange
  rw [if_neg hcond]
  norm_num [exZoomedState, exState]

/-- Claim C3 (amended): the media watcher resets zoom and pan to their
defaults (zoom 1, pan (0,0)) only when the new media has a nonempty path
and media type image, the canvas is initialized, and the decode succeeds —
the reset happens inside `loadImage`'s success callback.  A change to null,
to a non-image item, a change before initialization, and a failed decode
all leave zoom, panX and panY unchanged. -/
theorem mediaChange_reset_amended (vp : Viewport) (s : ViewerState)
    (item : MediaItem) (img : LoadedImage) (outcome : LoadOutcome) :
    (s.isInitialized = true → item.path ≠ "" →
      item.mediaType = some MediaType.image →
      ((onMediaChange vp (some item) (LoadOutcome.onload img) s).1.zoom = 1 ∧
       (onMediaChange vp (some item) (LoadOutcome.onload img) s).1.panX = 0 ∧
       (onMediaChange vp (some item) (LoadOutcome.onload img) s).1.panY = 0)) ∧
    (item.mediaType ≠ some MediaType.image →
      ((onMediaChange vp (some item) outcome s).1.zoom = s.zoom ∧
       (onMediaChange vp (some item) outcome s).1.panX = s.panX ∧
       (onMediaChange vp (some item) outcome s).1.panY = s.panY)) ∧
    ((onMediaChange vp none outcome s).1.zoom = s.zoom ∧
     (onMediaChange vp none outcome s).1.panX = s.panX ∧
     (onMediaChange vp none outcome s).1.panY = s.panY) ∧
    (s.isInitialized = false →
      ((onMediaChange vp (some item) outcome s).1.zoom = s.zoom ∧
       (onMediaChange vp (some item) outcome s).1.panX = s.panX ∧
       (onMediaChange vp (some item) outcome s).1.panY = s.panY)) ∧
    (s.isInitialized = true →
      ((onMediaChange vp (some item) LoadOutcome.onerror s).1.zoom = s.zoom ∧
       (onMediaChange vp (some item) LoadOutcome.onerror s).1.panX = s.panX ∧
       (onMediaChange vp (some item) LoadOutcome.onerror s).1.panY = s.panY)) := by
  refine ⟨?_, ?_, ?_, ?_, ?_⟩
  · intro hI hpath hmt
    unfold onMediaChange
    rw [if_pos ⟨hpath, hmt⟩]
    unfold loadImage
    rw [if_neg (by simp [hI])]
    exact resetView_view vp
      (handleResize vp { s with isLoading := false, loadedImage := some img })
  · intro hmt
    unfold onMediaChange
    rw [if_neg (by intro hcond; exact hmt hcond.2)]
    exact ⟨rfl, rfl, rfl⟩
  · unfold onMediaChange
    rw [if_neg (by intro hcond; exact hcond.1 rfl)]
    exact ⟨rfl, rfl, rfl⟩
  · intro hI0
    unfold onMediaChange
    split
    · unfold loadImage
      rw [if_pos hI0]
      exact ⟨rfl, rfl, rfl⟩
    · exact ⟨rfl, rfl, rfl⟩
  · intro hI
    unfold onMediaChange
    split
    · unfold loadImage
      rw [if_neg (by simp [hI])]
      exact ⟨rfl, rfl, rfl⟩
    · exact ⟨rfl, rfl, rfl⟩

/-- Claim C3 witness: a successful image change from a zoomed state does
reset zoom to 1. -/
theorem mediaChange_reset_amended_witness :
    (onMediaChange exVp (some exImageItem) (LoadOutcome.onload exImg)
      exZoomedState).1.zoom = 1 :=
  ((mediaChange_reset_amended exVp exZoomedState exImageItem exImg
      LoadOutcome.onerror).1 rfl (by simp [exImageItem]) rfl).1

/-! ### Claim C4 -/

/-- Claim C4 counterexample: at zoom 1/2 — strictly above `MIN_ZOOM` (0.1)
but at most 1 — `handleMouseDown` still ignores the event, contradicting
the claim that every state with zoom above the minimum starts a drag. -/
theorem mouseDown_midzoom_ignored_cex :
    MIN_ZOOM < exHalfZoomState.zoom ∧
    (handleMouseDown { clientX := 5, clientY := 5 } exHalfZoomState).isDragging
      = false := by
  constructor
  · norm_num [exHalfZoomState, exState, MIN_ZOOM]
  · unfold handleMouseDown
    rw [if_pos (by norm_num [exHalfZoomState, exState])]
    rfl

/-- Claim C4 (amended): `handleMouseDown` ignores the event (leaves all
state unchanged) if and only if `zoom ≤ 1` — the fit-to-screen zoom, not
`MIN_ZOOM = 0.1`; for every state with `zoom > 1` it sets `isDragging` and
records the drag anchor (pointer position and current pan). -/
theorem handleMouseDown_threshold (ev : MouseEventQ) (s : ViewerState) :
    (s.zoom ≤ 1 → handleMouseDown ev s = s) ∧
    (1 < s.zoom → handleMouseDown ev s =
      { s with
        isDragging := true
        dragStart := { x := ev.clientX, y := ev.clientY, panX := s.panX, panY := s.panY } }) := by
  constructor
  · intro h
    unfold handleMouseDown
    rw [if_pos h]
  · intro h
    unfold handleMouseDown
    rw [if_neg (not_le.mpr h)]

/-- Claim C4 witness: at zoom 2 a mouse down does start the drag. -/
theorem handleMouseDown_threshold_witness :
    handleMouseDown { clientX := 5, clientY := 5 } exZoomedState =
      { exZoomedState with
        isDragging := true
        dragStart := { x := 5, y := 5, panX := exZoomedState.panX, panY := exZoomedState.panY } } :=
  (handleMouseDown_threshold { clientX := 5, clientY := 5 } exZoomedState).2
    (by norm_num [exZoomedState, exState])

/-! ### Claim C5 -/

/-- Claim C5 (confirmed): from every reachable state of the mounted viewer
(any finite sequence of viewer operations applied to the freshly mounted
state) and for every further sequence of wheel events, the zoom stays
within `[MIN_ZOOM, MAX_ZOOM]`: every `handleWheel` clamps its new zoom to
that interval and no other operation can leave it. -/
theorem zoom_bounds_invariant (vp : Viewport) (ops : List ViewerOp)
    (evs : List (CanvasRect × WheelEventQ)) :
    MIN_ZOOM ≤ (evs.foldl (fun t e => handleWheel vp e.1 e.2 t)
        (applyOps vp ops initialMountedState)).zoom ∧
    (evs.foldl (fun t e => handleWheel vp e.1 e.2 t)
        (applyOps vp ops initialMountedState)).zoom ≤ MAX_ZOOM :=
  wheelFold_zoomBounds vp evs (applyOps vp ops initialMountedState)
    (applyOps_zoomBounds vp ops initialMountedState
      ⟨by norm_num [initialMountedState, MIN_ZOOM],
       by norm_num [initialMountedState, MAX_ZOOM]⟩)

/-! ### Claim C6 -/

/-- Claim C6 (confirmed): with an image loaded (and the refs mounted),
after every `handleWheel` and every dragging `handleMouseMove` the pan
satisfies `|panX| ≤ max 0 (fitWidth * zoom - viewportWidth) / 2` and
`|panY| ≤ max 0 (fitHeight * zoom - viewportHeight) / 2`, each axis clamped
independently (`panBounds`); a non-dragging `handleMouseMove` is a no-op and
preserves the bound, so the bound holds after every event of any wheel/move
sequence started from a state satisfying it. -/
theorem pan_bounds_invariant (vp : Viewport) (rect : CanvasRect)
    (ev : WheelEventQ) (mev : MouseEventQ) (evs : List PointerEvt)
    (s : ViewerState) (hcv : s.canvasReady = true)
    (hct : s.containerReady = true) (hli : s.loadedImage.isSome = true) :
    panBounds vp (handleWheel vp rect ev s) ∧
    (s.isDragging = true → panBounds vp (handleMouseMove vp mev s)) ∧
    (panBounds vp s → panBounds vp (handleMouseMove vp mev s)) ∧
    (panBounds vp s → panBounds vp (evs.foldl (applyPointer vp) s)) :=
  ⟨handleWheel_panBounds vp rect ev s hcv hct hli,
   fun hd => handleMouseMove_panBounds vp mev s hct hli hd,
   fun hpb => handleMouseMove_panBounds_preserve vp mev s hct hli hpb,
   fun hpb => pointerTrace_panBounds vp evs s hcv hct hli hpb⟩

/-- Claim C6 witness: a concrete wheel event on the displaying state lands
within the pan bounds. -/
theorem pan_bounds_invariant_witness :
    panBounds exVp (handleWheel exVp { left := 0, top := 0 }
      { clientX := 100, clientY := 75, deltaY := -1000 } exState) :=
  (pan_bounds_invariant exVp { left := 0, top := 0 }
    { clientX := 100, clientY := 75, deltaY := -1000 }
    { clientX := 0, clientY := 0 } [] exState rfl rfl rfl).1

/-! ### Claim C7 -/

def cexS2 : ViewerState := { exState with zoom := 2, panX := 100, panY := 75 }

def cexS3 : ViewerState :=
  { cexS2 with
    isDragging := true
    dragStart := { x := 10, y := 10, panX := 100, panY := 75 } }

def cexS4 : ViewerState := { cexS3 with zoom := 1/10, panX := 0, panY := 0 }

def cexS5 : ViewerState := { cexS4 with loadedImage := none }

def cexS6 : ViewerState := { cexS5 with panX := 150, panY := 75 }

/-- The trace refuting claim C7 as stated: load an image, zoom in, press
the mouse button, wheel down to minimum zoom (pan clamps to 0), switch the
media to a video (clears the image while the drag is still active), then
move the mouse: `constrainPan` skips clamping without an image, leaving a
nonzero pan at minimum zoom. -/
def cexOps : List ViewerOp :=
  [ViewerOp.mediaChange (some exImageItem) (LoadOutcome.onload exImg),
   ViewerOp.wheel { left := 0, top := 0 } { clientX := 100, clientY := 75, deltaY := -1000 },
   ViewerOp.mouseDown { clientX := 10, clientY := 10 },
   ViewerOp.wheel { left := 0, top := 0 } { clientX := 100, clientY := 75, deltaY := 5000 },
   ViewerOp.mediaChange (some exVideoItem) LoadOutcome.onerror,
   ViewerOp.mouseMove { clientX := 60, clientY := 10 }]

lemma mediaLoad_step_eval :
    applyOp exVp initialMountedState
      (ViewerOp.mediaChange (some exImageItem) (LoadOutcome.onload exImg)) = exState := by
  have hcond1 : mediaPath (some exImageItem) ≠ "" ∧
      mediaKind (some exImageItem) = some MediaType.image := by decide
  show (onMediaChange exVp (some exImageItem) (LoadOutcome.onload exImg)
    initialMountedState).1 = exState
  unfold onMediaChange
  rw [if_pos hcond1]
  unfold loadImage
  rw [if_neg (by simp [initialMountedState])]
  norm_num [handleResize, calculateImageFit, computeFit, resetView,
    initialMountedState, exVp, exImg, exState, exFit, Option.some_ne_none]

lemma cex_step2_eval :
    applyOp exVp exState (ViewerOp.wheel { left := 0, top := 0 }
      { clientX := 100, clientY := 75, deltaY := -1000 }) = cexS2 := by
  show handleWheel exVp { left := 0, top := 0 }
    { clientX := 100, clientY := 75, deltaY := -1000 } exState = cexS2
  norm_num [handleWheel, handleWheelCore, constrainPan, exState, exFit, exImg, exVp,
    cexS2, MIN_ZOOM, MAX_ZOOM, max_def, min_def, Option.some_ne_none]

lemma cex_step3_eval :
    applyOp exVp cexS2 (ViewerOp.mouseDown { clientX := 10, clientY := 10 }) = cexS3 := by
  show handleMouseDown { clientX := 10, clientY := 10 } cexS2 = cexS3
  unfold handleMouseDown
  rw [if_neg (by norm_num [cexS2, exState])]
  norm_num [cexS2, cexS3, exState]

lemma cex_step4_eval :
    applyOp exVp cexS3 (ViewerOp.wheel { left := 0, top := 0 }
      { clientX := 100, clientY := 75, deltaY := 5000 }) = cexS4 := by
  show handleWheel exVp { left := 0, top := 0 }
    { clientX := 100, clientY := 75, deltaY := 5000 } cexS3 = cexS4
  norm_num [handleWheel, handleWheelCore, constrainPan, cexS2, cexS3, cexS4, exState,
    exFit, exImg, exVp, MIN_ZOOM, MAX_ZOOM, max_def, min_def, Option.some_ne_none]

lemma cex_step5_eval :
    applyOp exVp cexS4 (ViewerOp.mediaChange (some exVideoItem) LoadOutcome.onerror)
      = cexS5 := by
  have hcond5 : ¬(mediaPath (some exVideoItem) ≠ "" ∧
      mediaKind (some exVideoItem) = some MediaType.image) := by decide
  show (onMediaChange exVp (some exVideoItem) LoadOutcome.onerror cexS4).1 = cexS5
  unfold onMediaChange
  rw [if_neg hcond5]
  rfl

lemma cex_step6_eval :
    applyOp exVp cexS5 (ViewerOp.mouseMove { clientX := 60, clientY := 10 }) = cexS6 := by
  show handleMouseMove exVp { clientX := 60, clientY := 10 } cexS5 = cexS6
  unfold handleMouseMove
  rw [if_neg (by decide)]
  norm_num [constrainPan, cexS2, cexS3, cexS4, cexS5, cexS6, exState, exFit, exImg]

lemma cexOps_eval : applyOps exVp cexOps initialMountedState = cexS6 := by
  have hfold : applyOps exVp cexOps initialMountedState =
      applyOp exVp (applyOp exVp (applyOp exVp (applyOp exVp (applyOp exVp
        (applyOp exVp initialMountedState
          (ViewerOp.mediaChange (some exImageItem) (LoadOutcome.onload exImg)))
        (ViewerOp.wheel { left := 0, top := 0 }
          { clientX := 100, clientY := 75, deltaY := -1000 }))
        (ViewerOp.mouseDown { clientX := 10, clientY := 10 }))
        (ViewerOp.wheel { left := 0, top := 0 }
          { clientX := 100, clientY := 75, deltaY := 5000 }))
        (ViewerOp.mediaChange (some exVideoItem) LoadOutcome.onerror))
        (ViewerOp.mouseMove { clientX := 60, clientY := 10 }) := rfl
  rw [hfold, mediaLoad_step_eval, cex_step2_eval, cex_step3_eval, cex_step4_eval,
    cex_step5_eval, cex_step6_eval]

/-- Claim C7 counterexample: a reachable state of the viewer (reached by
`cexOps` from the mounted initial state) has `zoom = MIN_ZOOM` and a
nonzero `panX`: after the loaded image is cleared by a media change to a
video, a still-active drag moves the pan and `constrainPan` skips clamping
because no image is loaded. -/
theorem rest_invariant_cex :
    (applyOps exVp cexOps initialMountedState).zoom = MIN_ZOOM ∧
    (applyOps exVp cexOps initialMountedState).panX ≠ 0 := by
  rw [cexOps_eval]
  constructor
  · norm_num [cexS6, cexS5, cexS4, cexS3, cexS2, exState, MIN_ZOOM]
  · norm_num [cexS6, cexS5, cexS4, cexS3, cexS2, exState]

/-- Claim C7 (amended): in every reachable state of the mounted viewer in
which an image is loaded, `zoom = MIN_ZOOM` implies `panX = panY = 0`
(under a fixed positive viewport and positively sized decoded images).
The restriction to image-loaded states is forced by the counterexample:
with the image cleared, a surviving drag can leave a nonzero pan at
minimum zoom. -/
theorem rest_invariant_amended (vp : Viewport) (ops : List ViewerOp)
    (hw : 0 < vp.width) (hh : 0 < vp.height)
    (hops : ∀ op ∈ ops, opImagesPos op)
    (hsome : (applyOps vp ops initialMountedState).loadedImage.isSome = true)
    (hz : (applyOps vp ops initialMountedState).zoom = MIN_ZOOM) :
    (applyOps vp ops initialMountedState).panX = 0 ∧
    (applyOps vp ops initialMountedState).panY = 0 :=
  (mountedInv_applyOps vp hw hh ops initialMountedState hops
    (mountedInv_initial vp hw hh)).2.2.2.2.2 hsome hz

def witOps : List ViewerOp :=
  [ViewerOp.mediaChange (some exImageItem) (LoadOutcome.onload exImg),
   ViewerOp.wheel { left := 0, top := 0 } { clientX := 100, clientY := 75, deltaY := 5000 }]

lemma wit_step2_eval :
    applyOp exVp exState (ViewerOp.wheel { left := 0, top := 0 }
      { clientX := 100, clientY := 75, deltaY := 5000 }) =
      { exState with zoom := 1/10, panX := 0, panY := 0 } := by
  show handleWheel exVp { left := 0, top := 0 }
    { clientX := 100, clientY := 75, deltaY := 5000 } exState =
    { exState with zoom := 1/10, panX := 0, panY := 0 }
  norm_num [handleWheel, handleWheelCore, constrainPan, exState, exFit, exImg, exVp,
    MIN_ZOOM, MAX_ZOOM, max_def, min_def, Option.some_ne_none]

lemma witOps_eval : applyOps exVp witOps initialMountedState =
    { exState with zoom := 1/10, panX := 0, panY := 0 } := by
  have hfold : applyOps exVp witOps initialMountedState =
      applyOp exVp (applyOp exVp initialMountedState
        (ViewerOp.mediaChange (some exImageItem) (LoadOutcome.onload exImg)))
        (ViewerOp.wheel { left := 0, top := 0 }
          { clientX := 100, clientY := 75, deltaY := 5000 }) := rfl
  rw [hfold, mediaLoad_step_eval, wit_step2_eval]

/-- Claim C7 witness: after loading an image and wheeling down to the
minimum zoom, the viewer is at `zoom = MIN_ZOOM` with an image loaded, and
the amended invariant applies: the pan is (0,0). -/
theorem rest_invariant_amended_witness :
    (applyOps exVp witOps initialMountedState).panX = 0 ∧
    (applyOps exVp witOps initialMountedState).panY = 0 :=
  rest_invariant_amended exVp witOps (by norm_num [exVp]) (by norm_num [exVp])
    (by intro op hop
        cases hop with
        | head => exact ⟨by norm_num [exImg], by norm_num [exImg]⟩
        | tail _ h2 =>
          cases h2 with
          | head => trivial
          | tail _ h3 => cases h3)
    (by rw [witOps_eval]; rfl)
    (by rw [witOps_eval]; norm_num [MIN_ZOOM])

/-! ### Claim C8 -/

/-- Claim C8 (confirmed): when the decode fails, `loadImage` sets
`isLoading` to false, rejects the promise with a load error, and leaves
`loadedImage`, `zoom`, `panX`, `panY` and `imageFit` exactly as they were
before the call. -/
theorem loadImage_failure_atomic (vp : Viewport) (p : String) (s : ViewerState)
    (hI : s.isInitialized = true) :
    (loadImage vp p LoadOutcome.onerror s).1.isLoading = false ∧
    (loadImage vp p LoadOutcome.onerror s).2 =
      Except.error "Failed to load image" ∧
    (loadImage vp p LoadOutcome.onerror s).1.loadedImage = s.loadedImage ∧
    (loadImage vp p LoadOutcome.onerror s).1.zoom = s.zoom ∧
    (loadImage vp p LoadOutcome.onerror s).1.panX = s.panX ∧
    (loadImage vp p LoadOutcome.onerror s).1.panY = s.panY ∧
    (loadImage vp p LoadOutcome.onerror s).1.imageFit = s.imageFit := by
  unfold loadImage
  rw [if_neg (by simp [hI])]
  exact ⟨rfl, rfl, rfl, rfl, rfl, rfl, rfl⟩

/-- Claim C8 witness: a failed decode on the zoomed state rejects with the
load error. -/
theorem loadImage_failure_atomic_witness :
    (loadImage exVp "x.png" LoadOutcome.onerror exZoomedState).2 =
      Except.error "Failed to load image" :=
  (loadImage_failure_atomic exVp "x.png" exZoomedState rfl).2.1

/-! ### Claim C9 -/

/-- Claim C9 (confirmed): a `loadImage` call made before the canvas is
initialized is a complete no-op — the state (including `isLoading` and
`loadedImage`) is returned unchanged and the promise resolves without an
error, for either decode outcome. -/
theorem loadImage_uninitialized_noop (vp : Viewport) (p : String)
    (outcome : LoadOutcome) (s : ViewerState) (h : s.isInitialized = false) :
    loadImage vp p outcome s = (s, Except.ok ()) := by
  unfold loadImage
  rw [if_pos h]

/-- Claim C9 witness: a load on the uninitialized state returns it
untouched with a resolved promise. -/
theorem loadImage_uninitialized_noop_witness :
    loadImage exVp "x.png" LoadOutcome.onerror exUninitState =
      (exUninitState, Except.ok ()) :=
  loadImage_uninitialized_noop exVp "x.png" LoadOutcome.onerror exUninitState rfl

/-! ### Claim C10 -/

/-- Claim C10 (confirmed): when the watched media becomes null, or an item
whose media type is not image, the watcher callback produces exactly the
prior state with `loadedImage` set to none — zoom, panX, panY and every
other field keep their prior values — and no error. -/
theorem mediaWatcher_non_image_frame (vp : Viewport) (s : ViewerState)
    (outcome : LoadOutcome) (item : MediaItem) :
    onMediaChange vp none outcome s =
      ({ s with loadedImage := none }, Except.ok ()) ∧
    (item.mediaType ≠ some MediaType.image →
      onMediaChange vp (some item) outcome s =
        ({ s with loadedImage := none }, Except.ok ())) := by
  constructor
  · unfold onMediaChange
    rw [if_neg (by intro hcond; exact hcond.1 rfl)]
  · intro hmt
    unfold onMediaChange
    rw [if_neg (by intro hcond; exact hmt hcond.2)]

/-- Claim C10 witness: switching to a video clears only the loaded image. -/
theorem mediaWatcher_non_image_frame_witness :
    onMediaChange exVp (some exVideoItem) LoadOutcome.onerror exZoomedState =
      ({ exZoomedState with loadedImage := none }, Except.ok ()) :=
  (mediaWatcher_non_image_frame exVp exZoomedState LoadOutcome.onerror
    exVideoItem).2 (by decide)
